import Mathlib

/-!
Verification of the scenario-simulation dashboard (`streamlit_app.py`).

The script has two independent panels:

* a Scenario Engine: a base time series (year, revenue `ca`, charges) is
  generated from a fixed numpy seed, global or per-year percentage
  adjustments are applied, margin metrics are derived, and the result is
  exportable as CSV;
* an Editable Ledger View: a categorised ledger is loaded from a
  semicolon-separated file, filtered to one category, edited by the user,
  re-aggregated by date for the fixed category "Chiffre d'affaires", and
  exported as CSV.

Modelling conventions:

* pandas float columns are modelled as exact rationals `ℚ`; the claims
  under verification are about the linear arithmetic, grouping and
  rounding structure of the computations, not about binary floating-point
  error;
* an IEEE division whose denominator is `0` yields a non-finite value
  (`inf` or `NaN`), never a crash; a non-finite float in a ratio column is
  modelled as `none : Option ℚ`;
* `pandas.Series.round(0)` and `numpy.round` round halfway cases to the
  nearest even integer; this is modelled exactly by `roundHalfEven`;
* a `NaT` produced by `pd.to_datetime(..., errors := coerce)` and a `NaN`
  produced by `pd.to_numeric(..., errors := coerce)` are modelled as
  `none`; dates are abstracted as ordinals (`Nat`);
* the numpy global random generator is modelled by an explicit state
  (seed and draw counter); the Gaussian sampler itself is external
  library code, modelled by a concrete function of the state whose only
  property used is that it is a function of the state.
-/

/-- One row of `df_base` in the Scenario Engine: year `annee`, revenue
`ca`, charges, and the derived `marge = ca - charges` and
`marge_pct = marge / ca` (`none` models a non-finite float ratio). -/
structure TimeSeriesRow where
  annee : Int
  ca : ℚ
  charges : ℚ
  marge : ℚ
  marge_pct : Option ℚ
deriving Repr, DecidableEq

/-- Builds a `df_base` row the way lines 28-34 of the script do:
`marge = ca - charges`, `marge_pct = marge / ca` (non-finite, hence
`none`, when `ca = 0`). -/
def mkTimeSeriesRow (annee : Int) (ca charges : ℚ) : TimeSeriesRow :=
  { annee := annee
    ca := ca
    charges := charges
    marge := ca - charges
    marge_pct := if ca = 0 then none else some ((ca - charges) / ca) }

/-- The scenario parameters read from the sidebar: the two global
percentage sliders, the per-year checkbox `use_per_year`, and the
per-year percentage maps (the script fills them with `0` for every year
not set by the user, so they are total maps defaulting to `0`). -/
structure ScenarioParams where
  global_ca_pct : ℚ
  global_charges_pct : ℚ
  use_per_year : Bool
  per_year_ca : Int → ℚ
  per_year_charges : Int → ℚ

/-- A row of the simulated dataframe `df`: the base columns plus the
`*_simu` columns added by lines 69-84 of the script. -/
structure SimulatedRow where
  annee : Int
  ca : ℚ
  charges : ℚ
  marge : ℚ
  marge_pct : Option ℚ
  ca_simu : ℚ
  charges_simu : ℚ
  marge_simu : ℚ
  marge_pct_simu : Option ℚ
deriving Repr, DecidableEq

/-- The per-row simulation of lines 69-84: the global multipliers are
applied first (`ca * (1 + global_ca_pct / 100)`, same for charges); when
`use_per_year` is set, both columns are recomputed from the BASE columns
with the per-year percentages, replacing the global effect; then
`marge_simu = ca_simu - charges_simu` and
`marge_pct_simu = marge_simu / ca_simu` (`none` models the non-finite
float produced when `ca_simu = 0`). -/
def simulateRow (p : ScenarioParams) (r : TimeSeriesRow) : SimulatedRow :=
  let ca_simu_global := r.ca * (1 + p.global_ca_pct / 100)
  let charges_simu_global := r.charges * (1 + p.global_charges_pct / 100)
  let ca_simu :=
    if p.use_per_year then r.ca * (1 + p.per_year_ca r.annee / 100)
    else ca_simu_global
  let charges_simu :=
    if p.use_per_year then r.charges * (1 + p.per_year_charges r.annee / 100)
    else charges_simu_global
  { annee := r.annee
    ca := r.ca
    charges := r.charges
    marge := r.marge
    marge_pct := r.marge_pct
    ca_simu := ca_simu
    charges_simu := charges_simu
    marge_simu := ca_simu - charges_simu
    marge_pct_simu :=
      if ca_simu = 0 then none else some ((ca_simu - charges_simu) / ca_simu) }

/-- `apply_scenario`: the whole simulation block (lines 69-84). The base
dataframe is copied and the `*_simu` columns are computed row by row. -/
def apply_scenario (base : List TimeSeriesRow) (p : ScenarioParams) :
    List SimulatedRow :=
  base.map (simulateRow p)

/-- Projection back to the base columns, used to state that
`apply_scenario` leaves the base series intact. -/
def SimulatedRow.baseRow (r : SimulatedRow) : TimeSeriesRow :=
  { annee := r.annee
    ca := r.ca
    charges := r.charges
    marge := r.marge
    marge_pct := r.marge_pct }

/-- The constant per-year map the script builds when the checkbox is off
(zero for every year). -/
def zeroPct : Int → ℚ := fun _ => 0

/-- Rounding to the nearest integer with halfway cases to the nearest
even integer: the behaviour of `numpy.round` / `pandas.Series.round(0)`
used on lines 25-26 and 184-185 of the script. -/
def roundHalfEven (q : ℚ) : ℤ :=
  let f := ⌊q⌋
  let r := q - (f : ℚ)
  if r < 1/2 then f
  else if 1/2 < r then f + 1
  else if f % 2 = 0 then f else f + 1

/-- The state of the numpy global random generator after `np.random.seed`:
the seed together with the number of standard-normal draws consumed so
far. Making the generator state explicit is the shallow embedding of
numpy's hidden global state. -/
structure RngState where
  seed : Nat
  counter : Nat
deriving Repr, DecidableEq

/-- `np.random.seed(s)` (line 23): resets the generator state. -/
def npRandomSeed (s : Nat) : RngState := ⟨s, 0⟩

/-- One standard-normal draw of the seeded generator. The Mersenne
Twister and its Gaussian transform are numpy library code, outside this
repository; they are modelled by a concrete arithmetic function of the
generator state. The only property of the sampler any claim uses is
that each draw is a function of the seed and the draw counter. -/
def stdNormalSample (st : RngState) : ℚ :=
  ((((st.seed + 1) * 2654435761 + (st.counter + 1) * 40503) % 1000003 : Nat) : ℚ)
    / 1000003 - 1/2

/-- `np.random.normal(0, sigma, n)`: `n` draws scaled by `sigma`,
advancing the generator state by `n`. -/
def npNormal (sigma : ℚ) (n : Nat) (st : RngState) : List ℚ × RngState :=
  ((List.range n).map (fun i => sigma * stdNormalSample ⟨st.seed, st.counter + i⟩),
   ⟨st.seed, st.counter + n⟩)

/-- `np.linspace a b n` evaluated at index `i`: `n` evenly spaced points
from `a` to `b` inclusive. -/
def linspace (a b : ℚ) (n i : Nat) : ℚ :=
  if n ≤ 1 then a else a + (b - a) * i / ((n - 1 : Nat) : ℚ)

/-- `generate_base_series` (lines 22-34): seeds the generator, draws the
revenue noise vector (sigma `0.03`) and then the charges noise vector
(sigma `0.02`), computes
`base_ca = round(linspace(800000, 1200000, n) * (1 + noise_ca))` and
`base_charges = round(base_ca * linspace(0.65, 0.55, n) * (1 + noise_charges))`,
and assembles the base dataframe rows with their derived margin columns. -/
def generate_base_series (seed : Nat) (years : List Int) : List TimeSeriesRow :=
  let n := years.length
  let st0 := npRandomSeed seed
  let drawsCa := npNormal (3/100) n st0
  let drawsCharges := npNormal (2/100) n drawsCa.2
  let base_ca : List ℚ := (List.range n).map (fun i =>
    ((roundHalfEven (linspace 800000 1200000 n i * (1 + (drawsCa.1.getD i 0)))) : ℚ))
  let base_charges : List ℚ := (List.range n).map (fun i =>
    ((roundHalfEven ((base_ca.getD i 0) * linspace (65/100) (55/100) n i *
        (1 + (drawsCharges.1.getD i 0)))) : ℚ))
  (List.range n).map (fun i =>
    mkTimeSeriesRow (years.getD i 0) (base_ca.getD i 0) (base_charges.getD i 0))

/-- `YEARS = list(range(2023, 2029))` (line 22). -/
def YEARS : List Int := [2023, 2024, 2025, 2026, 2027, 2028]

/-- A raw row of the semicolon-separated ledger file
`bp_forecast_tabulaire.csv`: the date cell as text, the category, and
the value as parsed by the CSV reader (`none` models a missing or
non-numeric cell). -/
structure RawLedgerRow where
  date : String
  categorie : String
  valeur : Option ℚ
deriving Repr, DecidableEq

/-- A typed ledger entry after the date column has gone through
`pd.to_datetime(..., errors := coerce)` and the value column through
`pd.to_numeric(..., errors := coerce)` (lines 153 and 175-176): `none`
models `NaT` / `NaN`. Dates are abstracted as day ordinals. -/
structure LedgerEntry where
  date : Option Nat
  categorie : String
  valeur : Option ℚ
deriving Repr, DecidableEq

/-- `load_ledger` (lines 152-153): reads the raw rows and coerces the
date column with a fixed-format parser; a cell the parser rejects
becomes a missing date (`none`), never an error. The day/month/year
parser itself is pandas library code, so it is a parameter. -/
def load_ledger (parseDate : String → Option Nat) (rows : List RawLedgerRow) :
    List LedgerEntry :=
  rows.map (fun r => { date := parseDate r.date, categorie := r.categorie,
                       valeur := r.valeur })

/-- `filter_by_category` (line 159): the boolean-mask filter
`df[df["categorie"] == cat]`. -/
def filter_by_category (entries : List LedgerEntry) (cat : String) :
    List LedgerEntry :=
  entries.filter (fun e => e.categorie = cat)

/-- The fixed category aggregated for the chart (line 179). -/
def targetCategory : String := "Chiffre d'affaires"

/-- Inserts a date into an ascending list of dates, keeping order. -/
def insertSorted (d : Nat) : List Nat → List Nat
  | [] => [d]
  | x :: xs => if d ≤ x then d :: x :: xs else x :: insertSorted d xs

/-- Inserts a date into an ascending duplicate-free list of dates. -/
def insertDate (d : Nat) (l : List Nat) : List Nat :=
  if d ∈ l then l else insertSorted d l

/-- The group keys of `groupby("date")`: the distinct parseable dates,
ascending; rows whose date is missing (`NaT`) contribute no key, exactly
as pandas drops null keys from a groupby. -/
def datesOf (entries : List LedgerEntry) : List Nat :=
  (entries.filterMap (fun e => e.date)).foldr insertDate []

/-- The per-date sum of `groupby("date")["valeur"].sum()`: missing
values are skipped (contribute nothing to the sum), exactly as pandas
sums with `skipna`. -/
def sumAtDate (entries : List LedgerEntry) (d : Nat) : ℚ :=
  ((entries.filter (fun e => e.date = some d)).map
    (fun e => e.valeur.getD 0)).sum

/-- One row of `df_ca_sum` (lines 182-186): date, summed value,
`valeur_k = round(valeur / 1000)` cast to int, and the display label
`"{valeur_k} K€"`. -/
structure AggregatedPoint where
  date : Nat
  valeur : ℚ
  valeur_k : ℤ
  valeur_label : String
deriving Repr, DecidableEq

/-- `aggregate_category` (lines 179-186): filter to the fixed category
"Chiffre d'affaires", group by date, sum the values per date, then
derive `valeur_k = round(valeur / 1000)` and the label string. -/
def aggregate_category (entries : List LedgerEntry) : List AggregatedPoint :=
  let df_ca := entries.filter (fun e => e.categorie = targetCategory)
  (datesOf df_ca).map (fun d =>
    let v := sumAtDate df_ca d
    let k := roundHalfEven (v / 1000)
    { date := d, valeur := v, valeur_k := k,
      valeur_label := toString k ++ " K€" })

/-- Rendering of a date cell in the exported CSV (missing date: empty
cell). -/
def csvDateCell : Option Nat → String
  | none => ""
  | some d => toString d

/-- Rendering of a value cell in the exported CSV (missing value: empty
cell). -/
def csvValueCell : Option ℚ → String
  | none => ""
  | some v => toString v

/-- One data line of the exported ledger CSV: the three columns joined
by commas, with no index column. -/
def ledgerCsvLine (e : LedgerEntry) : String :=
  csvDateCell e.date ++ "," ++ e.categorie ++ "," ++ csvValueCell e.valeur

/-- `to_csv(index=False)` on a ledger table (line 231): a header line
followed by one comma-separated line per row, no index column. -/
def ledger_to_csv (entries : List LedgerEntry) : String :=
  String.intercalate "\n" ("date,categorie,valeur" :: entries.map ledgerCsvLine)
    ++ "\n"

/-- The Editable Ledger View export pipeline (lines 156-171 and
229-234): the loaded ledger is filtered to the selected category, the
user edit surface replaces that filtered subset (`edit` is the arbitrary
replacement the user produced in the data editor), and the download
button serialises exactly that edited table. -/
def export_edited (df : List LedgerEntry) (cat : String)
    (edit : List LedgerEntry → List LedgerEntry) : String :=
  ledger_to_csv (edit (filter_by_category df cat))

/-- The per-year revenue override map of the C3 scenario:
`{2023: 5}`, every other year absent (hence `0`). -/
def c3_per_year_ca : Int → ℚ := fun y => if y = 2023 then 5 else 0

/-- The per-year charges override map of the C3 scenario:
`{2023: 0}`, every other year absent (hence `0`). -/
def c3_per_year_charges : Int → ℚ := fun _ => 0

/-- C3: with per-year mode on, the per-year percentages fully replace the
global ones: the simulated series does not depend on the global
percentages at all, and in the `{2023: 5% / 0%}` scenario the 2023 row is
`ca * 1.05` and `charges` unchanged, whatever the globals are. -/
theorem per_year_override_replaces_global :
    (∀ (base : List TimeSeriesRow) (g1 g2 g1' g2' : ℚ) (ov_ca ov_ch : Int → ℚ),
      apply_scenario base ⟨g1, g2, true, ov_ca, ov_ch⟩ =
        apply_scenario base ⟨g1', g2', true, ov_ca, ov_ch⟩) ∧
    (∀ (g1 g2 ca ch : ℚ),
      (simulateRow ⟨g1, g2, true, c3_per_year_ca, c3_per_year_charges⟩
          (mkTimeSeriesRow 2023 ca ch)).ca_simu = ca * (1 + 5 / 100) ∧
      (simulateRow ⟨g1, g2, true, c3_per_year_ca, c3_per_year_charges⟩
          (mkTimeSeriesRow 2023 ca ch)).charges_simu = ch) := by
  constructor
  · intro base g1 g2 g1' g2' ov_ca ov_ch
    simp [apply_scenario, simulateRow]
  · intro g1 g2 ca ch
    constructor
    · simp [simulateRow, mkTimeSeriesRow, c3_per_year_ca]
    · simp [simulateRow, mkTimeSeriesRow, c3_per_year_charges]

/-- C4: with per-year mode off, every row gets the global multipliers
`ca * (1 + global_ca_pct / 100)` and
`charges * (1 + global_charges_pct / 100)`, with
`marge_simu = ca_simu - charges_simu` and, for a nonzero simulated
revenue, `marge_pct_simu = marge_simu / ca_simu`; on the base row
`(2023, 1000, 600)` with `+10% / -20%` this gives
`1100, 480, 620, 620/1100`. -/
theorem global_scenario_uniform (p : ScenarioParams) (r : TimeSeriesRow)
    (h : p.use_per_year = false) :
    (simulateRow p r).ca_simu = r.ca * (1 + p.global_ca_pct / 100) ∧
    (simulateRow p r).charges_simu = r.charges * (1 + p.global_charges_pct / 100) ∧
    (simulateRow p r).marge_simu =
      (simulateRow p r).ca_simu - (simulateRow p r).charges_simu ∧
    ((simulateRow p r).ca_simu ≠ 0 →
      (simulateRow p r).marge_pct_simu =
        some ((simulateRow p r).marge_simu / (simulateRow p r).ca_simu)) ∧
    apply_scenario [mkTimeSeriesRow 2023 1000 600] ⟨10, -20, false, zeroPct, zeroPct⟩ =
      [{ annee := 2023, ca := 1000, charges := 600, marge := 400,
         marge_pct := some (2/5), ca_simu := 1100, charges_simu := 480,
         marge_simu := 620, marge_pct_simu := some (31/55) }] := by
  refine ⟨by simp [simulateRow, h], by simp [simulateRow, h],
          by simp [simulateRow, h], ?_, ?_⟩
  · intro h0
    simp only [simulateRow, h] at h0 ⊢
    simp only [Bool.false_eq_true, if_false] at h0 ⊢
    rw [if_neg h0]
  · simp [apply_scenario, simulateRow, mkTimeSeriesRow, zeroPct]
    norm_num

/-- C4 witness: the theorem instantiated on the concrete scenario of the
claim. -/
theorem global_scenario_uniform_witness :
    (simulateRow ⟨10, -20, false, zeroPct, zeroPct⟩
        (mkTimeSeriesRow 2023 1000 600)).ca_simu = 1000 * (1 + (10:ℚ) / 100) ∧
    apply_scenario [mkTimeSeriesRow 2023 1000 600] ⟨10, -20, false, zeroPct, zeroPct⟩ =
      [{ annee := 2023, ca := 1000, charges := 600, marge := 400,
         marge_pct := some (2/5), ca_simu := 1100, charges_simu := 480,
         marge_simu := 620, marge_pct_simu := some (31/55) }] := by
  have h := global_scenario_uniform ⟨10, -20, false, zeroPct, zeroPct⟩
    (mkTimeSeriesRow 2023 1000 600) rfl
  exact ⟨h.1, h.2.2.2.2⟩

/-- C5: the margin-ratio column is an explicit marker: on any row where
the simulated revenue is `0` the float division produces a non-finite
value, modelled as `none` (never a crash, never a finite number), and on
any other row it is `marge_simu / ca_simu`. -/
theorem margin_ratio_non_finite_marker (p : ScenarioParams) (r : TimeSeriesRow) :
    ((simulateRow p r).ca_simu = 0 → (simulateRow p r).marge_pct_simu = none) ∧
    ((simulateRow p r).ca_simu ≠ 0 →
      (simulateRow p r).marge_pct_simu =
        some ((simulateRow p r).marge_simu / (simulateRow p r).ca_simu)) := by
  constructor
  · intro h0
    simp only [simulateRow] at h0 ⊢
    rw [if_pos h0]
  · intro h0
    simp only [simulateRow] at h0 ⊢
    rw [if_neg h0]

/-- C5 witness: a concrete zero-revenue scenario (global `-100%` on
revenue) where the ratio is the undefined marker. -/
theorem margin_ratio_non_finite_marker_witness :
    (simulateRow ⟨-100, 0, false, zeroPct, zeroPct⟩
        (mkTimeSeriesRow 2023 1000 600)).marge_pct_simu = none :=
  (margin_ratio_non_finite_marker ⟨-100, 0, false, zeroPct, zeroPct⟩
      (mkTimeSeriesRow 2023 1000 600)).1
    (by norm_num [simulateRow, mkTimeSeriesRow, zeroPct])

/-- C7: with per-year mode on, a row whose year has zero override
percentages (the default for a year absent from the override maps) is
left exactly unchanged: `ca_simu = ca` and `charges_simu = charges`. -/
theorem missing_override_is_identity (p : ScenarioParams) (r : TimeSeriesRow)
    (ht : p.use_per_year = true)
    (hca : p.per_year_ca r.annee = 0)
    (hch : p.per_year_charges r.annee = 0) :
    (simulateRow p r).ca_simu = r.ca ∧
    (simulateRow p r).charges_simu = r.charges := by
  constructor
  · simp [simulateRow, ht, hca]
  · simp [simulateRow, ht, hch]

/-- C7 witness: a year (2024) absent from the C3 override maps is
unchanged even with per-year mode on. -/
theorem missing_override_is_identity_witness :
    (simulateRow ⟨17, -3, true, c3_per_year_ca, c3_per_year_charges⟩
        (mkTimeSeriesRow 2024 900 500)).ca_simu = 900 ∧
    (simulateRow ⟨17, -3, true, c3_per_year_ca, c3_per_year_charges⟩
        (mkTimeSeriesRow 2024 900 500)).charges_simu = 500 :=
  missing_override_is_identity ⟨17, -3, true, c3_per_year_ca, c3_per_year_charges⟩
    (mkTimeSeriesRow 2024 900 500) rfl
    (by norm_num [c3_per_year_ca, mkTimeSeriesRow])
    (by norm_num [c3_per_year_charges, mkTimeSeriesRow])

/-- C8: `apply_scenario` never mutates the base series: the output has
one row per base row, in the same order, whose base columns (year,
revenue, charges, margin, margin ratio) are exactly the base row; only
the `*_simu` columns are added. -/
theorem apply_scenario_preserves_base_series (base : List TimeSeriesRow)
    (p : ScenarioParams) :
    (apply_scenario base p).map SimulatedRow.baseRow = base := by
  rw [apply_scenario, List.map_map]
  have h : SimulatedRow.baseRow ∘ simulateRow p = id := by
    funext r
    rfl
  rw [h, List.map_id]

/-- C9: `generate_base_series` is deterministic: two runs that seed the
generator with the same seed produce identical base series for any year
list. -/
theorem generate_base_series_deterministic (s1 s2 : Nat) (years : List Int)
    (h : s1 = s2) :
    generate_base_series s1 years = generate_base_series s2 years := by
  rw [h]

/-- C9 witness: two runs with the script's seed `42` on the script's
`YEARS` coincide. -/
theorem generate_base_series_deterministic_witness :
    generate_base_series 42 YEARS = generate_base_series 42 YEARS :=
  generate_base_series_deterministic 42 42 YEARS rfl

/-- C10: channel noninterference: parameter settings agreeing on the
charges channel (global charges percentage and per-year charges map, and
the per-year switch) produce the same `charges_simu` column whatever the
revenue percentages are, and symmetrically for `ca_simu`. -/
theorem scenario_channel_noninterference (base : List TimeSeriesRow)
    (p q : ScenarioParams) (hmode : p.use_per_year = q.use_per_year) :
    (p.global_charges_pct = q.global_charges_pct →
      p.per_year_charges = q.per_year_charges →
      (apply_scenario base p).map SimulatedRow.charges_simu =
        (apply_scenario base q).map SimulatedRow.charges_simu) ∧
    (p.global_ca_pct = q.global_ca_pct →
      p.per_year_ca = q.per_year_ca →
      (apply_scenario base p).map SimulatedRow.ca_simu =
        (apply_scenario base q).map SimulatedRow.ca_simu) := by
  constructor
  · intro h1 h2
    rw [apply_scenario, apply_scenario, List.map_map, List.map_map]
    have h : SimulatedRow.charges_simu ∘ simulateRow p =
        SimulatedRow.charges_simu ∘ simulateRow q := by
      funext r
      simp [simulateRow, hmode, h1, h2]
    rw [h]
  · intro h1 h2
    rw [apply_scenario, apply_scenario, List.map_map, List.map_map]
    have h : SimulatedRow.ca_simu ∘ simulateRow p =
        SimulatedRow.ca_simu ∘ simulateRow q := by
      funext r
      simp [simulateRow, hmode, h1, h2]
    rw [h]

/-- C10 witness: two settings differing only in the global revenue
percentage give the same simulated charges column on a concrete base. -/
theorem scenario_channel_noninterference_witness :
    (apply_scenario [mkTimeSeriesRow 2023 1000 600]
        ⟨10, -20, false, zeroPct, zeroPct⟩).map SimulatedRow.charges_simu =
      (apply_scenario [mkTimeSeriesRow 2023 1000 600]
        ⟨99, -20, false, zeroPct, zeroPct⟩).map SimulatedRow.charges_simu :=
  (scenario_channel_noninterference [mkTimeSeriesRow 2023 1000 600]
      ⟨10, -20, false, zeroPct, zeroPct⟩ ⟨99, -20, false, zeroPct, zeroPct⟩ rfl).1
    rfl rfl

lemma datesOf_middle_dateless (A B : List LedgerEntry) (e : LedgerEntry)
    (he : e.date = none) :
    datesOf (A ++ e :: B) = datesOf (A ++ B) := by
  simp [datesOf, List.filterMap_append, List.filterMap_cons, he]

lemma sumAtDate_middle_of_ne (A B : List LedgerEntry) (e : LedgerEntry) (d : Nat)
    (he : ¬ e.date = some d) :
    sumAtDate (A ++ e :: B) d = sumAtDate (A ++ B) d := by
  simp [sumAtDate, List.filter_append, List.filter_cons, he]

lemma aggregate_category_middle_dateless (A B : List LedgerEntry) (e : LedgerEntry)
    (he : e.date = none) :
    aggregate_category (A ++ e :: B) = aggregate_category (A ++ B) := by
  by_cases hc : e.categorie = targetCategory
  · have hfilter : (A ++ e :: B).filter (fun x => x.categorie = targetCategory) =
        A.filter (fun x => x.categorie = targetCategory) ++
          e :: B.filter (fun x => x.categorie = targetCategory) := by
      simp [List.filter_append, List.filter_cons, hc]
    simp only [aggregate_category]
    rw [hfilter, List.filter_append]
    rw [datesOf_middle_dateless _ _ _ he]
    have hsum : ∀ d : Nat,
        sumAtDate (A.filter (fun x => x.categorie = targetCategory) ++
          e :: B.filter (fun x => x.categorie = targetCategory)) d =
        sumAtDate (A.filter (fun x => x.categorie = targetCategory) ++
          B.filter (fun x => x.categorie = targetCategory)) d := by
      intro d
      exact sumAtDate_middle_of_ne _ _ _ _ (by simp [he])
    simp only [hsum]
  · have hfilter : (A ++ e :: B).filter (fun x => x.categorie = targetCategory) =
        A.filter (fun x => x.categorie = targetCategory) ++
          B.filter (fun x => x.categorie = targetCategory) := by
      simp [List.filter_append, List.filter_cons, hc]
    simp only [aggregate_category]
    rw [hfilter, List.filter_append]

/-- C6: a ledger row whose date cell the parser rejects is loaded with a
missing date (no error), it is absent from the aggregation (the other
rows aggregate exactly as if it were not there), and a missing value
cell contributes nothing to its date's sum. -/
theorem unparseable_date_excluded (p : String → Option Nat)
    (pre post : List RawLedgerRow) (s c : String) (v : Option ℚ)
    (hp : p s = none) :
    load_ledger p (pre ++ { date := s, categorie := c, valeur := v } :: post) =
      load_ledger p pre ++
        { date := none, categorie := c, valeur := v } :: load_ledger p post ∧
    aggregate_category
        (load_ledger p (pre ++ { date := s, categorie := c, valeur := v } :: post)) =
      aggregate_category (load_ledger p (pre ++ post)) ∧
    (∀ (A B : List LedgerEntry) (d : Nat) (c2 : String),
      sumAtDate (A ++ { date := some d, categorie := c2, valeur := none } :: B) d =
        sumAtDate (A ++ B) d) := by
  refine ⟨?_, ?_, ?_⟩
  · simp [load_ledger, hp]
  · have h1 : load_ledger p (pre ++ { date := s, categorie := c, valeur := v } :: post) =
        load_ledger p pre ++
          ({ date := none, categorie := c, valeur := v } : LedgerEntry) ::
            load_ledger p post := by
      simp [load_ledger, hp]
    have h2 : load_ledger p (pre ++ post) =
        load_ledger p pre ++ load_ledger p post := by
      simp [load_ledger]
    rw [h1, h2]
    exact aggregate_category_middle_dateless _ _ _ rfl
  · intro A B d c2
    simp [sumAtDate, List.filter_append, List.filter_cons]

/-- The fixed-format date parser of the C6 witness: it accepts exactly
one date string. -/
def c6_dateParse : String → Option Nat :=
  fun s => if s = "01/02/2024" then some 7 else none

/-- The rows before the bad row in the C6 witness. -/
def c6_pre : List RawLedgerRow :=
  [{ date := "01/02/2024", categorie := targetCategory, valeur := some 100 }]

/-- The rows after the bad row in the C6 witness. -/
def c6_post : List RawLedgerRow :=
  [{ date := "01/02/2024", categorie := targetCategory, valeur := some 250 }]

/-- C6 witness: a concrete table with one unparseable date aggregates
exactly like the table without that row. -/
theorem unparseable_date_excluded_witness :
    aggregate_category
        (load_ledger c6_dateParse
          (c6_pre ++
            { date := "garbage", categorie := targetCategory, valeur := some 999 } ::
              c6_post)) =
      aggregate_category (load_ledger c6_dateParse (c6_pre ++ c6_post)) :=
  (unparseable_date_excluded c6_dateParse c6_pre c6_post "garbage" targetCategory
      (some 999) (by decide)).2.1

/-- C2 counterexample: two same-date entries of the target category with
values 1200 and 1300 do NOT aggregate to `valeur_k = 3`: the script
rounds `2500 / 1000 = 2.5` with the numpy half-to-even convention,
giving `2`. -/
theorem aggregate_category_rounds_half_to_even :
    (aggregate_category
        [{ date := some 0, categorie := targetCategory, valeur := some 1200 },
         { date := some 0, categorie := targetCategory, valeur := some 1300 }]).map
      AggregatedPoint.valeur_k ≠ [3] := by
  have h : (aggregate_category
      [{ date := some 0, categorie := targetCategory, valeur := some 1200 },
       { date := some 0, categorie := targetCategory, valeur := some 1300 }]).map
      AggregatedPoint.valeur_k = [2] := by
    simp [aggregate_category, datesOf, insertDate, insertSorted, sumAtDate]
    norm_num [roundHalfEven]
  rw [h]
  decide

/-- C2 amended: two same-date entries of the target category consolidate
into a single point whose value is the sum, with
`valeur_k = round(valeur / 1000)` under the half-to-even convention and
label `"{valeur_k} K€"`; values 100 and 250 give `350, 0, "0 K€"`, and
values 1200 and 1300 give `2500, 2, "2 K€"`. -/
theorem aggregate_category_consolidates_same_date :
    (∀ (d : Nat) (v1 v2 : ℚ),
      aggregate_category
          [{ date := some d, categorie := targetCategory, valeur := some v1 },
           { date := some d, categorie := targetCategory, valeur := some v2 }] =
        [{ date := d, valeur := v1 + v2,
           valeur_k := roundHalfEven ((v1 + v2) / 1000),
           valeur_label := toString (roundHalfEven ((v1 + v2) / 1000)) ++ " K€" }]) ∧
    aggregate_category
        [{ date := some 0, categorie := targetCategory, valeur := some 100 },
         { date := some 0, categorie := targetCategory, valeur := some 250 }] =
      [{ date := 0, valeur := 350, valeur_k := 0, valeur_label := "0 K€" }] ∧
    aggregate_category
        [{ date := some 0, categorie := targetCategory, valeur := some 1200 },
         { date := some 0, categorie := targetCategory, valeur := some 1300 }] =
      [{ date := 0, valeur := 2500, valeur_k := 2, valeur_label := "2 K€" }] := by
  refine ⟨?_, ?_, ?_⟩
  · intro d v1 v2
    simp [aggregate_category, datesOf, insertDate, insertSorted, sumAtDate]
  · simp [aggregate_category, datesOf, insertDate, insertSorted, sumAtDate]
    norm_num [roundHalfEven]
    rfl
  · simp [aggregate_category, datesOf, insertDate, insertSorted, sumAtDate]
    norm_num [roundHalfEven]
    rfl

/-- The two-category ledger of the C1 counterexample. -/
def dfLedgerEx : List LedgerEntry :=
  [{ date := some 1, categorie := "A", valeur := some 10 },
   { date := some 2, categorie := "B", valeur := some 20 }]

/-- C1 counterexample: with category "A" selected and no user edits, the
download button serialises only the "A" rows, not the full two-category
ledger: the exported CSV differs from the CSV of the full edited set. -/
theorem export_edited_omits_other_categories :
    export_edited dfLedgerEx "A" id ≠ ledger_to_csv dfLedgerEx ∧
    export_edited dfLedgerEx "A" id =
      ledger_to_csv [{ date := some 1, categorie := "A", valeur := some 10 }] := by
  constructor
  · decide
  · decide

/-- C1 amended: the Editable Ledger View export serialises exactly the
edited rows of the currently selected category (the filtered subset as
replaced by the user's edits), as a comma-separated table with a header
and no index column; every row of that filtered subset carries the
selected category. -/
theorem export_edited_exports_filtered_subset :
    (∀ (df : List LedgerEntry) (cat : String)
        (edit : List LedgerEntry → List LedgerEntry),
      export_edited df cat edit = ledger_to_csv (edit (filter_by_category df cat))) ∧
    (∀ (df : List LedgerEntry) (cat : String) (e : LedgerEntry),
      e ∈ filter_by_category df cat → e.categorie = cat) := by
  constructor
  · intro df cat edit
    rfl
  · intro df cat e he
    simp [filter_by_category, List.mem_filter] at he
    exact he.2

/-- C1 amended witness: the theorem instantiated on the two-category
ledger with "A" selected and the identity edit. -/
theorem export_edited_exports_filtered_subset_witness :
    export_edited dfLedgerEx "A" id =
      ledger_to_csv (id (filter_by_category dfLedgerEx "A")) ∧
    ({ date := some 1, categorie := "A", valeur := some 10 } : LedgerEntry).categorie
      = "A" :=
  ⟨export_edited_exports_filtered_subset.1 dfLedgerEx "A" id,
   export_edited_exports_filtered_subset.2 dfLedgerEx "A"
     { date := some 1, categorie := "A", valeur := some 10 } (by decide)⟩
